import Mathlib

/-!
Shallow embedding of parts of the message-ix-models repository
(MESSAGEix-Transport and materials modules) together with proofs about the
embedded operations.

Source files embedded:
- src/message_ix_models/model/transport/demand.py
- src/message_ix_models/model/transport/report.py
- src/message_ix_models/model/transport/files.py
- src/message_ix_models/model/transport/utils.py
- src/message_ix_models/model/transport/data/ikarus.py
- src/message_ix_models/model/material/dunder init (get_spec)
-/

namespace MixModels

/-! ### String helpers

Python string operations are embedded as structurally recursive functions on
character lists so that they evaluate inside the kernel. -/

/-- Lexicographic comparison of character lists by Unicode code point; this is
the order that Python string comparison (and hence `sorted`) uses. -/
def lexLe : List Char → List Char → Bool
  | [], _ => true
  | _ :: _, [] => false
  | a :: as, b :: bs =>
    if a.toNat < b.toNat then true
    else if b.toNat < a.toNat then false
    else lexLe as bs

/-- Order on strings corresponding to Python string comparison. -/
def sLe (a b : String) : Prop := lexLe a.toList b.toList = true

instance : DecidableRel sLe := fun _ _ => inferInstanceAs (Decidable (_ = true))

/-- Split a character list at every occurrence of the character c, like
Python str.split for a one-character separator. -/
def splitChar (c : Char) : List Char → List (List Char)
  | [] => [[]]
  | x :: xs =>
    let r := splitChar c xs
    if x = c then [] :: r else (x :: r.headD []) :: r.tail

/-- Decide whether pat is a prefix of l. -/
def subAt : List Char → List Char → Bool
  | [], _ => true
  | _ :: _, [] => false
  | p :: ps, x :: xs => p = x && subAt ps xs

/-- Decide whether pat occurs as a contiguous substring of l, like the Python
expression pat in l on strings. -/
def hasSub (pat : List Char) : List Char → Bool
  | [] => pat.isEmpty
  | x :: xs => subAt pat (x :: xs) || hasSub pat xs

/-- Python substring test pat in s. -/
def strContains (s pat : String) : Bool := hasSub pat.toList s.toList

/-- Value of a decimal digit character, as Python int() accepts. -/
def charDigit (c : Char) : Option Nat :=
  if c = '0' then some 0
  else if c = '1' then some 1
  else if c = '2' then some 2
  else if c = '3' then some 3
  else if c = '4' then some 4
  else if c = '5' then some 5
  else if c = '6' then some 6
  else if c = '7' then some 7
  else if c = '8' then some 8
  else if c = '9' then some 9
  else none

/-- Parse a nonempty digit string into a natural number, like Python int(). -/
def natOfChars (l : List Char) : Option Nat :=
  match l with
  | [] => none
  | _ =>
    l.foldl (fun acc c => acc.bind fun n => (charDigit c).map fun d => n * 10 + d)
      (some 0)

/-- Parse an optionally negated digit string into an integer, like Python
int(). -/
def intOfChars : List Char → Option Int
  | '-' :: rest => (natOfChars rest).map fun n => -(n : Int)
  | l => (natOfChars l).map fun n => (n : Int)

/-! ### C3 - transport/demand.py, function dummy -/

/-- Element of the commodity code list; annos holds the ids of the annotations
attached to the code (dummy only ever asks for the one with id "demand"). -/
structure Commodity where
  id : String
  annos : List String
deriving DecidableEq

/-- Test used by dummy: commodity.get_annotation(id="demand") succeeds exactly
when an annotation with id "demand" is attached. -/
def hasDemandAnno (c : Commodity) : Bool := c.annos.contains "demand"

/-- One row of the "demand" parameter data frame produced by make_df. -/
structure DemandRow where
  commodity : String
  level : String
  time : String
  value : Int
  year : Int
  unit : String
  node : String
deriving DecidableEq

/-- Row of the dummy demand frame for the i-th year yr of commodity c:
level "useful", time "year", value 10 + i, unit "t km" when "freight" occurs
in the commodity id and "km" otherwise. -/
def mkDemandRow (c : Commodity) (i : Nat) (yr : Int) (n : String) : DemandRow :=
  ⟨c.id, "useful", "year", 10 + (i : Int), yr,
    if strContains c.id "freight" then "t km" else "km", n⟩

/-- Rows of make_df("demand", commodity=c.id, ..., value=10+arange(len(y)),
year=y): one row per year, value 10 + i for the i-th year. -/
def demandRows (c : Commodity) (y : List Int) : List DemandRow :=
  y.enum.map fun p => mkDemandRow c p.1 p.2 ""

/-- Modelled from the spec: message_ix_models.util.broadcast (not in src/)
duplicates every row of the frame once for every node in nodes, writing the
node into the node column. -/
def broadcastNodes (rows : List DemandRow) (nodes : List String) : List DemandRow :=
  nodes.flatMap fun n =>
    rows.map fun r => ⟨r.commodity, r.level, r.time, r.value, r.year, r.unit, n⟩

/-- Embedding of dummy (demand.py lines 29-72).  The result is the dict of
parameter data; pandas.concat raises ValueError when the list of frames is
empty, embedded as the error case. -/
def dummy (commodities : List Commodity) (nodes : List String) (y : List Int)
    (demandDummyCfg : Bool) : Except String (List (String × List DemandRow)) :=
  if demandDummyCfg = true then
    let dfs := (commodities.filter hasDemandAnno).map (demandRows · y)
    if dfs = [] then .error "No objects to concatenate"
    else .ok [("demand", broadcastNodes dfs.flatten nodes)]
  else
    .ok []

/-! ### C8 - transport/utils.py, function consumer_groups -/

/-- Relevant slice of the transport set configuration: for each of the three
dimensions, the list of (code, name) pairs of its "add" dict. -/
structure TransportSetCtx where
  area_type : List (String × String)
  attitude : List (String × String)
  driver_type : List (String × String)

/-- Cartesian product of three code lists, in itertools.product order. -/
def prod3 (a b c : List String) : List (String × String × String) :=
  a.flatMap fun x => b.flatMap fun y => c.map fun z => (x, y, z)

/-- Concatenated string code of one element of the product. -/
def joinCode (i : String × String × String) : String := i.1 ++ i.2.1 ++ i.2.2

/-- Description string for one element of the product: the names joined by
", " and lower-cased. -/
def descOf (ctx : TransportSetCtx) (i : String × String × String) : String :=
  (String.intercalate ", "
    [((ctx.area_type.lookup i.1).getD ""),
     ((ctx.attitude.lookup i.2.1).getD ""),
     ((ctx.driver_type.lookup i.2.2).getD "")]).toLower

/-- Possible return values of consumer_groups, one constructor per rtype. -/
inductive CGResult where
  | codes (l : List String)
  | descriptions (l : List (String × String))
  | indexers (areaType attitude driverType cg : List String)
deriving DecidableEq

/-- Embedding of consumer_groups (utils.py lines 70-111).  The error case is
the ValueError raised for an unknown rtype. -/
def consumer_groups (rtype : String) (ctx : TransportSetCtx) :
    Except String CGResult :=
  let indices := prod3 (ctx.area_type.map Prod.fst) (ctx.attitude.map Prod.fst)
    (ctx.driver_type.map Prod.fst)
  let code := indices.map joinCode
  if rtype = "description" then
    .ok (.descriptions (code.zip (indices.map (descOf ctx))))
  else if rtype = "indexers" then
    .ok (.indexers (indices.map Prod.fst) (indices.map fun i => i.2.1)
      (indices.map fun i => i.2.2) code)
  else if rtype = "code" then
    .ok (.codes (List.insertionSort sLe code))
  else
    .error rtype

/-! ### C9 - transport/files.py, ExogenousDataFile and FILES -/

/-- Arguments of the ExogenousDataFile constructor that matter here: the path
parts (a str argument arrives as a one-element list) and the optional key. -/
structure EDFArgs where
  parts : List String
  key : Option String
  required : Bool

/-- An ExogenousDataFile after construction; key is the rendered key string. -/
structure ExogenousDataFile where
  parts : List String
  key : String
  required : Bool
deriving DecidableEq

/-- Python Path.with_suffix("") on a file name: drop the part after the last
dot, if any dot is present. -/
def dropExt (s : String) : String :=
  if s.toList.contains '.' then
    String.mk (((s.toList.reverse.dropWhile fun c => c ≠ '.').drop 1).reverse)
  else s

/-- Key name derived from the path parts when no key argument is given:
" ".join(Path(*parts).with_suffix("").parts).replace("-", " "). -/
def derivedKeyName (parts : List String) : String :=
  String.mk
    ((String.intercalate " " (parts.dropLast ++ [dropExt (parts.getLastD "")])).toList.map
      fun c => if c = '-' then ' ' else c)

/-- Embedding of ExogenousDataFile.init (files.py lines 30-56) up to the
point where the instance exists: the ".csv" suffix is appended to the last
path part, and the key is the given one or the derived "name::exo" key.
Passing an empty parts tuple raises IndexError, embedded as none. -/
def mkExogenousDataFile (a : EDFArgs) : Option ExogenousDataFile :=
  if a.parts = [] then none
  else
    let parts2 := a.parts.dropLast ++ [a.parts.getLastD "" ++ ".csv"]
    let key := match a.key with
      | some k => k
      | none => derivedKeyName parts2 ++ "::exo"
    some ⟨parts2, key, a.required⟩

/-- Registration at the end of the constructor: the file is appended to FILES
only when no existing entry has an equal key. -/
def registerFile (files : List ExogenousDataFile) (f : ExogenousDataFile) :
    List ExogenousDataFile :=
  if files.any fun g => g.key == f.key then files else files ++ [f]

/-- One constructor call acting on the module-level FILES list.  A failing
construction raises before touching FILES, leaving it unchanged. -/
def constructStep (files : List ExogenousDataFile) (a : EDFArgs) :
    List ExogenousDataFile :=
  match mkExogenousDataFile a with
  | none => files
  | some f => registerFile files f

/-! ### C4 - material, function get_spec -/

/-- Per-set configuration entry of one spec type in the material config:
the "require", "add" and "remove" lists, an absent entry being []. -/
structure MaterialSetCfg where
  require : List String
  add : List String
  remove : List String

/-- Spec types iterated over by get_spec, in order. -/
def SPEC_LIST : List String :=
  ["generic", "common", "steel", "cement", "aluminum", "petro_chemicals"]

/-- The three ScenarioInfo objects built by get_spec; .set is a defaultdict of
lists, embedded as a total function that is [] off its support. -/
structure MatSpec where
  require : String → List String
  add : String → List String
  remove : String → List String

/-- Extend the list stored under set name n by xs (ScenarioInfo.set[n].extend). -/
def updSet (f : String → List String) (n : String) (xs : List String) :
    String → List String :=
  fun s => if s = n then f s ++ xs else f s

/-- Processing of one (set_name, config) item of one spec type. -/
def getSpecStep (acc : MatSpec) (e : String × MaterialSetCfg) : MatSpec :=
  ⟨updSet acc.require e.1 e.2.require,
   updSet acc.add e.1 e.2.add,
   updSet acc.remove e.1 e.2.remove⟩

/-- Embedding of get_spec (material module, lines 27-49).  The argument mat
gives, for each spec type, the items of context["material"][type].  The
result is the returned dict as an association list. -/
def get_spec (mat : String → List (String × MaterialSetCfg)) :
    List (String × (String → List String)) :=
  let final := SPEC_LIST.foldl (fun acc ty => (mat ty).foldl getSpecStep acc)
    ⟨fun _ => [], fun _ => [], fun _ => []⟩
  [("require", final.require), ("add", final.add), ("remove", final.remove)]

/-- Concatenation, in SPEC_LIST order, of the selected configuration entries
for set name s; this is the claim-side description of the result. -/
def specConcat (mat : String → List (String × MaterialSetCfg))
    (sel : MaterialSetCfg → List String) (s : String) : List String :=
  SPEC_LIST.flatMap fun ty =>
    (mat ty).flatMap fun e => if e.1 = s then sel e.2 else []

/-! ### C5 - transport/data/ikarus.py, capacity factor and fix cost -/

/-- Dimension vector of a pint unit over the base dimensions relevant to the
IKARUS data (the derived unit pkm is passenger times km). -/
structure UnitDim where
  passenger : Int
  km : Int
  vehicle : Int
  year : Int
  cur : Int
deriving DecidableEq

/-- Product of units: exponents add. -/
def uMul (a b : UnitDim) : UnitDim :=
  ⟨a.passenger + b.passenger, a.km + b.km, a.vehicle + b.vehicle,
   a.year + b.year, a.cur + b.cur⟩

/-- Units of the availability column after convert_units:
kilometer / vehicle / year. -/
def uAvailability : UnitDim := ⟨0, 1, -1, -1, 0⟩

/-- Units of the occupancy factor read from config: pkm / km = passenger. -/
def uOccupancy : UnitDim := ⟨1, 0, 0, 0, 0⟩

/-- Units of the fix_cost column after convert_units:
currency / vehicle / year. -/
def uFixCost : UnitDim := ⟨0, 0, -1, -1, 1⟩

/-- Units of the var_cost column after convert_units: currency / kilometer. -/
def uVarCost : UnitDim := ⟨0, -1, 0, 0, 1⟩

/-- Units asserted for the capacity factor:
passenger km / vehicle / year. -/
def uCapacityFactorTarget : UnitDim := ⟨1, 1, -1, -1, 0⟩

/-- Quantity with units, as a pint quantity. -/
structure PQty where
  val : ℚ
  u : UnitDim
deriving DecidableEq

/-- Multiplication of pint quantities. -/
def qMul (a b : PQty) : PQty := ⟨a.val * b.val, uMul a.u b.u⟩

/-- Addition of pint quantities; pint raises DimensionalityError on mismatched
units, embedded as none. -/
def qAdd (a b : PQty) : Option PQty :=
  if a.u = b.u then some ⟨a.val + b.val, a.u⟩ else none

/-- Per-year values of one technology table that enter the computation of
capacity_factor and fix_cost (ikarus.py lines 140-156). -/
structure IkarusRow where
  availability : ℚ
  fix_cost : ℚ
  var_cost : ℚ

/-- Embedding of the capacity-factor and fix-cost computation for one value of
one technology table (ikarus.py lines 143-154): capacity_factor is
availability times the occupancy factor; the units assertion is the guard (a
failing assert is none); fix_cost becomes fix_cost + availability * var_cost. -/
def processIkarusRow (r : IkarusRow) (occ : ℚ) : Option (PQty × PQty) :=
  let avail : PQty := ⟨r.availability, uAvailability⟩
  let occupancy : PQty := ⟨occ, uOccupancy⟩
  let capacityFactor := qMul avail occupancy
  if capacityFactor.u = uCapacityFactorTarget then
    (qAdd ⟨r.fix_cost, uFixCost⟩ (qMul avail ⟨r.var_cost, uVarCost⟩)).map
      fun fc => (capacityFactor, fc)
  else none

/-! ### C1 - transport/demand.py, prepare_reporter queue -/

/-- One task of the genno computation graph: the name of the operation, its
keyword arguments, and the keys of its inputs. -/
structure QTask where
  op : String
  kw : List (String × String)
  inputs : List String
deriving DecidableEq

/-- Task with no keyword arguments. -/
def t0 (op : String) (inputs : List String) : QTask := ⟨op, [], inputs⟩

/-- Embedding of the queue assembled by prepare_reporter (demand.py lines
245-372), one entry per c.add task in order.  gdpKey, merKey are the resolved
full keys of GDP and MERtoPPP; priceFullKey is the resolved
PRICE_COMMODITY key with h and l dropped and no tag, so that
price_sel = priceFullKey:transport and price = priceFullKey:transport+smooth. -/
def demandQueue (gdpKey merKey priceFullKey : String) : List (String × QTask) :=
  [("speed:t", t0 "speed" ["config"]),
   ("whour:", t0 "whour" ["config"]),
   ("lambda:", t0 "_lambda" ["config"]),
   ("n:ex world", t0 "nodes_ex_world" ["n"]),
   ("n:ex world+code", t0 "nodes_ex_world" ["nodes"]),
   ("y:model", t0 "model_periods" ["y", "cat_year"]),
   ("base shares:n-t-y",
     t0 "base_shares" ["n:ex world", "t:transport modes", "y:model", "config"]),
   ("population:n-y", ⟨"population", [("extra_dims", "False")], ["y", "config"]⟩),
   ("population:n-y-area_type", t0 "urban_rural_shares" ["y:model", "config"]),
   ("cg share:n-y-cg", t0 "cg_shares" ["population:n-y-area_type", "context"]),
   ("GDP:n-y:PPP", t0 "product" [gdpKey, merKey]),
   ("GDP:n-y:PPP+capita", t0 "ratio" ["GDP:n-y:PPP", "population:n-y"]),
   ("transport pdt:n-y:capita", t0 "pdt_per_capita" ["GDP:n-y:PPP+capita", "config"]),
   ("transport pdt:n-y:total", t0 "product" ["transport pdt:n-y:capita", "population:n-y"]),
   ("votm:n-y", t0 "votm" ["GDP:n-y:PPP+capita"]),
   (priceFullKey ++ ":transport", ⟨"select", [("c", "transport")], [priceFullKey]⟩),
   (priceFullKey ++ ":transport+smooth", t0 "smooth" [priceFullKey ++ ":transport"]),
   ("cost:n-y-c-t",
     t0 "cost" [priceFullKey ++ ":transport+smooth", "GDP:n-y:PPP+capita",
       "whour:", "speed:t", "votm:n-y", "y:model"]),
   ("share weight:n-t-y",
     t0 "share_weight" ["base shares:n-t-y", "GDP:n-y:PPP+capita", "cost:n-y-c-t",
       "lambda:", "n:ex world", "y:model", "t:transport", "cat_year", "config"]),
   ("shares:n-t-y",
     ⟨"logit", [("dim", "t")],
      ["cost:n-y-c-t", "share weight:n-t-y", "lambda:", "y:model"]⟩),
   ("transport pdt:n-y-t",
     t0 "product" ["transport pdt:n-y:total", "shares:n-t-y"]),
   ("transport pdt:n-y-t:capita", t0 "ratio" ["transport pdt:n-y-t", "population:n-y"]),
   ("transport ldv pdt:n-y:total",
     ⟨"select", [("t", "[LDV]")], ["transport pdt:n-y-t"]⟩),
   ("transport ldv pdt", t0 "product" ["transport ldv pdt:n-y:total", "cg share:n-y-cg"]),
   ("demand:ixmp", t0 "demand_ixmp" ["transport pdt:n-y-t", "transport ldv pdt:n-y-cg"]),
   ("demand dummy:ixmp", t0 "dummy" ["c:transport", "nodes:ex world", "y:model", "config"])]

/-- An environment env assigning a value to every key evaluates the graph g
under the operation semantics sem when every task equation of g holds. -/
def ConsistentEnv {V : Type} (sem : QTask → List V → V) (g : List (String × QTask))
    (env : String → V) : Prop :=
  ∀ e ∈ g, env e.1 = sem e.2 (e.2.inputs.map env)

/-! ### C2 - transport/demand.py, function add_exogenous_data -/

/-- Tasks added by add_exogenous_data. -/
inductive ETask where
  | passThrough (k : String)
  | load (path : String) (units : String)
  | rename (input : String)
  | adaptR11R14 (input : String)
  | interpolate (input : String) (coordsY : List Int)
  | gdp (inputs : List String)
  | dummyPrices (input : String)
deriving DecidableEq

/-- Embedding of add_exogenous_data (demand.py lines 94-147).  Modelled from
the spec where the helper is outside src/: message_ix_models.util.check_support
raises for every context whose regions setting is not in the supported
frozenset, embedded as the error case. -/
def add_exogenous_data (regions : String) (infoY : List Int) (path : String) :
    Except String (List (String × ETask)) :=
  if ¬ (regions = "R11" ∨ regions = "R12" ∨ regions = "R14") then
    .error "Exogenous data for demand projection"
  else
    let k1 := "MERtoPPP::raw"
    let k2 := "MERtoPPP:n-y:rename"
    let k3 := "MERtoPPP:n-y:" ++ regions
    let step3 : List (String × ETask) :=
      if regions = "R11" ∨ regions = "R12" then [(k3, .passThrough k2)]
      else if regions = "R14" then [(k3, .adaptR11R14 k2)]
      else []
    .ok ([(k1, .load path ""), (k2, .rename k1)] ++ step3 ++
      [("MERtoPPP:n-y", .interpolate k3 infoY),
       ("GDP:n-y", .gdp ["y", "config"]),
       ("PRICE_COMMODITY:n-c-y", .dummyPrices "GDP:n-y")])

/-! ### C6 - transport/report.py, add_iamc_store_write and convert_iamc -/

/-- Tasks added by the reporting code. -/
inductive RTask where
  | makeOutputPath (fileName : String)
  | writeReport (data path : String)
  | collect (keys : List String)
  | storeTS (scen data : String)
  | concatQ (keys : List String)
  | iamcTable (v : String)
deriving DecidableEq

/-- Computer.add with default strict=False: a later addition under an existing
key replaces it.  The graph is an association list searched from the front, so
consing implements replacement. -/
def gAdd {α : Type} (g : List (String × α)) (k : String) (v : α) :
    List (String × α) :=
  (k, v) :: g

/-- Name part of a genno key string such as "foo::iamc" (KeySeq(...).base.name). -/
def keyName (k : String) : String :=
  String.mk ((splitChar ':' k.toList).headD [])

/-- Embedding of add_iamc_store_write (report.py lines 124-166): returns the
extended graph and the returned key. -/
def add_iamc_store_write (g : List (String × RTask)) (base : String) :
    List (String × RTask) × String :=
  let g1 := gAdd g (base ++ "+csv path") (.makeOutputPath (keyName base ++ ".csv"))
  let g2 := gAdd g1 (base ++ "+csv") (.writeReport base (base ++ "+csv path"))
  let g3 := gAdd g2 (base ++ "+xlsx path") (.makeOutputPath (keyName base ++ ".xlsx"))
  let g4 := gAdd g3 (base ++ "+xlsx") (.writeReport base (base ++ "+xlsx path"))
  let g5 := gAdd g4 (base ++ "+file") (.collect [base ++ "+csv", base ++ "+xlsx"])
  let g6 := gAdd g5 (base ++ "+store") (.storeTS "scenario" base)
  (gAdd g6 (base ++ "+all") (.collect [base ++ "+file", base ++ "+store"]),
   base ++ "+all")

/-- Variables of the uncommented entries of CONVERT_IAMC, in order. -/
def CONVERT_IAMC_variables : List String :=
  ["transport activity", "transport stock", "transport sales", "transport fe",
   "transport fe ldv"]

/-- Modelled from the spec: message_ix_models.report.iamc (not in src/) adds,
for each CONVERT_IAMC entry, a key "(variable)::iamc" holding the
IAMC-format table for that variable. -/
def handle_iamc (g : List (String × RTask)) (v : String) :
    List (String × RTask) :=
  gAdd g (v ++ "::iamc") (.iamcTable v)

/-- Embedding of convert_iamc (report.py lines 243-259). -/
def convert_iamc (g : List (String × RTask)) : List (String × RTask) × String :=
  let keys := CONVERT_IAMC_variables.map fun v => v ++ "::iamc"
  let g1 := CONVERT_IAMC_variables.foldl handle_iamc g
  let g2 := gAdd g1 "transport::iamc" (.concatQ keys)
  add_iamc_store_write g2 "transport::iamc"

/-! ### C7 - transport/demand.py, function add_structure -/

/-- Values stored by add_structure. -/
inductive SVal where
  | qStrs (l : List String)
  | qInts (l : List Int)
  | qCatYear (y0 : Int)
deriving DecidableEq

/-- Slice of the ScenarioInfo and context used by add_structure. -/
structure StructInfo where
  commodity : List String
  consumer_group : List String
  nodeNames : List String
  nodeCodes : List String
  year : List Int
  y0 : Int
  demandModes : List String

/-- The seven structure entries added by add_structure (demand.py lines
164-175), in order. -/
def structureEntries (si : StructInfo) : List (String × SVal) :=
  [("c:transport", .qStrs si.commodity),
   ("cg", .qStrs si.consumer_group),
   ("n", .qStrs si.nodeNames),
   ("nodes", .qStrs si.nodeCodes),
   ("t:transport modes", .qStrs si.demandModes),
   ("y", .qInts si.year),
   ("cat_year", .qCatYear si.y0)]

/-- Computer.add with strict=True wrapped in try/except KeyExistsError: when
the key already exists the graph is left untouched, otherwise the entry is
added. -/
def addStrict (g : List (String × SVal)) (k : String) (v : SVal) :
    List (String × SVal) :=
  if (g.lookup k).isSome then g else g ++ [(k, v)]

/-- Embedding of add_structure (demand.py lines 150-181) acting on graph g. -/
def add_structure (g : List (String × SVal)) (si : StructInfo) :
    List (String × SVal) :=
  (structureEntries si).foldl (fun acc e => addStrict acc e.1 e.2) g

/-! ### C10 - transport/report.py, function latest_reporting_from_file -/

/-- One version subdirectory matched by the glob: its name, whether it
contains transport.csv, and the rows of that file (Scenario column first,
remaining columns abstracted into one payload string). -/
structure RDir where
  name : String
  hasFile : Bool
  rows : List (String × String)
deriving DecidableEq

/-- Version parsed from a directory name: int(name.split("v")[-1]), none when
int() would raise ValueError. -/
def parseVersion (s : String) : Option Int :=
  intOfChars ((splitChar 'v' s.toList).getLastD [])

/-- Descending order on directories used by sorted(..., reverse=True). -/
def dirGe (a b : RDir) : Prop := sLe b.name a.name

instance : DecidableRel dirGe := fun a b => inferInstanceAs (Decidable (sLe b.name a.name))

/-- The glob results sorted in descending order. -/
def sortDirsDesc (dirs : List RDir) : List RDir := List.insertionSort dirGe dirs

/-- Loop body of latest_reporting_from_file: directories without the file are
skipped; at the first directory with the file, the version is parsed from the
directory name (a ValueError is the error case) and the data is returned with
"#(version)" appended to the Scenario column; when no directory has the
file, the result is (None, -1, empty frame). -/
def searchDirs : List RDir → Except String (Option String × Int × List (String × String))
  | [] => .ok (none, -1, [])
  | d :: rest =>
    if d.hasFile then
      match parseVersion d.name with
      | none => .error ("invalid literal for int: " ++ d.name)
      | some v =>
        .ok (some (d.name ++ "/transport.csv"), v,
          d.rows.map fun r => (r.1 ++ "#" ++ toString v, r.2))
    else searchDirs rest

/-- Embedding of latest_reporting_from_file (report.py lines 386-420), with
the glob results given as dirs. -/
def latest_reporting_from_file (dirs : List RDir) :
    Except String (Option String × Int × List (String × String)) :=
  searchDirs (sortDirsDesc dirs)

/-! ## Helper lemmas -/

/-- Totality of the lexicographic character order. -/
theorem lexLe_total (as bs : List Char) : lexLe as bs = true ∨ lexLe bs as = true := by
  induction as generalizing bs with
  | nil => left; rfl
  | cons a as ih =>
    cases bs with
    | nil => right; rfl
    | cons b bs =>
      simp only [lexLe]
      rcases Nat.lt_trichotomy a.toNat b.toNat with h | h | h
      · left; simp [h]
      · simp [h, Nat.lt_irrefl]
        exact ih bs
      · right; simp [h, Nat.lt_asymm h]

/-- Transitivity of the lexicographic character order. -/
theorem lexLe_trans (as bs cs : List Char) (h1 : lexLe as bs = true)
    (h2 : lexLe bs cs = true) : lexLe as cs = true := by
  induction as generalizing bs cs with
  | nil => rfl
  | cons a as ih =>
    cases bs with
    | nil => simp [lexLe] at h1
    | cons b bs =>
      cases cs with
      | nil => simp [lexLe] at h2
      | cons c cs =>
        simp only [lexLe] at h1 h2 ⊢
        rcases Nat.lt_trichotomy a.toNat b.toNat with hab | hab | hab
        · rcases Nat.lt_trichotomy b.toNat c.toNat with hbc | hbc | hbc
          · simp [Nat.lt_trans hab hbc]
          · simp [show a.toNat < c.toNat by omega]
          · rw [if_neg (by omega), if_pos hbc] at h2
            exact absurd h2 (by simp)
        · rw [if_neg (by omega), if_neg (by omega)] at h1
          rcases Nat.lt_trichotomy b.toNat c.toNat with hbc | hbc | hbc
          · simp [show a.toNat < c.toNat by omega]
          · rw [if_neg (by omega), if_neg (by omega)] at h2
            rw [if_neg (by omega), if_neg (by omega)]
            exact ih bs cs h1 h2
          · rw [if_neg (by omega), if_pos hbc] at h2
            exact absurd h2 (by simp)
        · rw [if_neg (by omega), if_pos hab] at h1
          exact absurd h1 (by simp)

/-! ## C5 — IKARUS capacity factor, units assertion and fix cost -/

/-- C5: in get_ikarus_data, for every technology table and every per-year
value, the computed capacity factor equals the availability times the output
efficiency (occupancy factor), the assertion that the resulting units are
passenger km / vehicle / year holds, and fix_cost becomes the read fixed cost
plus availability times variable cost. -/
theorem ikarus_capacity_factor_fix_cost (r : IkarusRow) (occ : ℚ) :
    processIkarusRow r occ =
      some (⟨r.availability * occ, uCapacityFactorTarget⟩,
            ⟨r.fix_cost + r.availability * r.var_cost, uFixCost⟩) := by
  unfold processIkarusRow qMul qAdd
  norm_num [uMul, uAvailability, uOccupancy, uCapacityFactorTarget, uFixCost, uVarCost]

/-! ## C2 — add_exogenous_data: supported regions and MERtoPPP handling -/

/-- C2: add_exogenous_data raises for every regions setting outside
R11/R12/R14; for R11 and R12 the renamed MERtoPPP quantity is passed through
unchanged to the region-tagged key; for R14 it is derived from the renamed
data by adapt_R11_R14. -/
theorem add_exogenous_data_regions :
    (∀ regions infoY path, regions ∉ (["R11", "R12", "R14"] : List String) →
      add_exogenous_data regions infoY path =
        .error "Exogenous data for demand projection") ∧
    (∀ regions infoY path, regions = "R11" ∨ regions = "R12" →
      ∃ g, add_exogenous_data regions infoY path = .ok g ∧
        g.lookup ("MERtoPPP:n-y:" ++ regions) =
          some (.passThrough "MERtoPPP:n-y:rename")) ∧
    (∀ infoY path, ∃ g, add_exogenous_data "R14" infoY path = .ok g ∧
      g.lookup "MERtoPPP:n-y:R14" = some (.adaptR11R14 "MERtoPPP:n-y:rename")) := by
  refine ⟨?_, ?_, ?_⟩
  · intro regions infoY path h
    simp only [List.mem_cons, List.not_mem_nil, or_false, not_or] at h
    simp [add_exogenous_data, h.1, h.2.1, h.2.2]
  · intro regions infoY path hr
    rcases hr with rfl | rfl <;> exact ⟨_, rfl, rfl⟩
  · intro infoY path
    exact ⟨_, rfl, rfl⟩

/-! ## C6 — add_iamc_store_write and convert_iamc -/

/-- C6: applying add_iamc_store_write to the base key "foo::iamc" adds keys
that write the data to files foo.csv and foo.xlsx, a key combining both file
writes, a key storing the data as time series on the scenario, and returns the
key under which both writing and storing are performed; convert_iamc adds one
IAMC table per CONVERT_IAMC entry, concatenates them into "transport::iamc",
and applies add_iamc_store_write to that key. -/
theorem iamc_store_write_graph (g : List (String × RTask)) :
    ((add_iamc_store_write g "foo::iamc").1.lookup "foo::iamc+csv path" =
        some (.makeOutputPath "foo.csv") ∧
      (add_iamc_store_write g "foo::iamc").1.lookup "foo::iamc+csv" =
        some (.writeReport "foo::iamc" "foo::iamc+csv path") ∧
      (add_iamc_store_write g "foo::iamc").1.lookup "foo::iamc+xlsx path" =
        some (.makeOutputPath "foo.xlsx") ∧
      (add_iamc_store_write g "foo::iamc").1.lookup "foo::iamc+xlsx" =
        some (.writeReport "foo::iamc" "foo::iamc+xlsx path") ∧
      (add_iamc_store_write g "foo::iamc").1.lookup "foo::iamc+file" =
        some (.collect ["foo::iamc+csv", "foo::iamc+xlsx"]) ∧
      (add_iamc_store_write g "foo::iamc").1.lookup "foo::iamc+store" =
        some (.storeTS "scenario" "foo::iamc") ∧
      (add_iamc_store_write g "foo::iamc").1.lookup "foo::iamc+all" =
        some (.collect ["foo::iamc+file", "foo::iamc+store"]) ∧
      (add_iamc_store_write g "foo::iamc").2 = "foo::iamc+all") ∧
    ((convert_iamc g).1.lookup "transport activity::iamc" =
        some (.iamcTable "transport activity") ∧
      (convert_iamc g).1.lookup "transport stock::iamc" =
        some (.iamcTable "transport stock") ∧
      (convert_iamc g).1.lookup "transport sales::iamc" =
        some (.iamcTable "transport sales") ∧
      (convert_iamc g).1.lookup "transport fe::iamc" =
        some (.iamcTable "transport fe") ∧
      (convert_iamc g).1.lookup "transport fe ldv::iamc" =
        some (.iamcTable "transport fe ldv") ∧
      (convert_iamc g).1.lookup "transport::iamc" =
        some (.concatQ ["transport activity::iamc", "transport stock::iamc",
          "transport sales::iamc", "transport fe::iamc", "transport fe ldv::iamc"]) ∧
      (convert_iamc g).1.lookup "transport::iamc+csv" =
        some (.writeReport "transport::iamc" "transport::iamc+csv path") ∧
      (convert_iamc g).1.lookup "transport::iamc+csv path" =
        some (.makeOutputPath "transport.csv") ∧
      (convert_iamc g).1.lookup "transport::iamc+xlsx" =
        some (.writeReport "transport::iamc" "transport::iamc+xlsx path") ∧
      (convert_iamc g).1.lookup "transport::iamc+store" =
        some (.storeTS "scenario" "transport::iamc") ∧
      (convert_iamc g).1.lookup "transport::iamc+file" =
        some (.collect ["transport::iamc+csv", "transport::iamc+xlsx"]) ∧
      (convert_iamc g).1.lookup "transport::iamc+all" =
        some (.collect ["transport::iamc+file", "transport::iamc+store"]) ∧
      (convert_iamc g).2 = "transport::iamc+all") := by
  exact ⟨⟨rfl, rfl, rfl, rfl, rfl, rfl, rfl, rfl⟩,
    ⟨rfl, rfl, rfl, rfl, rfl, rfl, rfl, rfl, rfl, rfl, rfl, rfl, rfl⟩⟩

/-! ## C4 — material get_spec -/

/-- Effect of folding getSpecStep over the items of one spec type, stated for
any field selector pick with step behaviour hstep. -/
theorem foldSpecStep_sel (sel : MaterialSetCfg → List String)
    (pick : MatSpec → (String → List String))
    (hstep : ∀ acc e, pick (getSpecStep acc e) = updSet (pick acc) e.1 (sel e.2))
    (l : List (String × MaterialSetCfg)) :
    ∀ acc s, pick (l.foldl getSpecStep acc) s =
      pick acc s ++ (l.flatMap fun e => if e.1 = s then sel e.2 else []) := by
  induction l with
  | nil => intro acc s; simp
  | cons e t ih =>
    intro acc s
    rw [List.foldl_cons, ih, hstep, List.flatMap_cons]
    by_cases hse : s = e.1
    · simp [updSet, hse]
    · simp [updSet, hse, Ne.symm hse]

/-- Effect of the outer fold over a list of spec types. -/
theorem foldSpecTypes_sel (sel : MaterialSetCfg → List String)
    (pick : MatSpec → (String → List String))
    (hstep : ∀ acc e, pick (getSpecStep acc e) = updSet (pick acc) e.1 (sel e.2))
    (mat : String → List (String × MaterialSetCfg)) (L : List String) :
    ∀ acc s, pick (L.foldl (fun acc ty => (mat ty).foldl getSpecStep acc) acc) s =
      pick acc s ++ L.flatMap (fun ty =>
        (mat ty).flatMap fun e => if e.1 = s then sel e.2 else []) := by
  induction L with
  | nil => intro acc s; simp
  | cons ty T ih =>
    intro acc s
    rw [List.foldl_cons, ih, foldSpecStep_sel sel pick hstep, List.flatMap_cons,
      List.append_assoc]

/-- C4: the material get_spec returns a mapping with exactly the keys
"require", "add" and "remove", and for every set name the three returned set
lists are the concatenation, in SPEC_LIST order, of the configured "require",
"add" and "remove" entries respectively, an absent entry contributing
nothing. -/
theorem material_get_spec (mat : String → List (String × MaterialSetCfg)) :
    ∃ fr fa frm, get_spec mat = [("require", fr), ("add", fa), ("remove", frm)] ∧
      (get_spec mat).map Prod.fst = ["require", "add", "remove"] ∧
      ∀ s, fr s = specConcat mat (fun c => c.require) s ∧
        fa s = specConcat mat (fun c => c.add) s ∧
        frm s = specConcat mat (fun c => c.remove) s := by
  refine ⟨_, _, _, rfl, rfl, fun s => ⟨?_, ?_, ?_⟩⟩
  · have h := foldSpecTypes_sel (fun c => c.require) (fun m => m.require)
      (fun _ _ => rfl) mat SPEC_LIST ⟨fun _ => [], fun _ => [], fun _ => []⟩ s
    simpa [specConcat] using h
  · have h := foldSpecTypes_sel (fun c => c.add) (fun m => m.add)
      (fun _ _ => rfl) mat SPEC_LIST ⟨fun _ => [], fun _ => [], fun _ => []⟩ s
    simpa [specConcat] using h
  · have h := foldSpecTypes_sel (fun c => c.remove) (fun m => m.remove)
      (fun _ _ => rfl) mat SPEC_LIST ⟨fun _ => [], fun _ => [], fun _ => []⟩ s
    simpa [specConcat] using h

/-! ## C7 — add_structure frame property -/

/-- addStrict preserves every key that is already bound. -/
theorem addStrict_lookup_some {g : List (String × SVal)} {k : String} {v : SVal}
    (k2 : String) (v2 : SVal) (h : g.lookup k = some v) :
    (addStrict g k2 v2).lookup k = some v := by
  unfold addStrict
  split
  · exact h
  · rw [List.lookup_append, h]; rfl

/-- addStrict leaves a key unbound when it is unbound and distinct from the
added key. -/
theorem addStrict_lookup_none {g : List (String × SVal)} {k : String}
    (k2 : String) (v2 : SVal) (h : g.lookup k = none) (hk : k ≠ k2) :
    (addStrict g k2 v2).lookup k = none := by
  unfold addStrict
  split
  · exact h
  · rw [List.lookup_append, h]
    have hb : (k == k2) = false := beq_eq_false_iff_ne.mpr hk
    simp [List.lookup, hb]

/-- addStrict binds an unbound key to the added value. -/
theorem addStrict_lookup_new {g : List (String × SVal)} {k : String} (v : SVal)
    (h : g.lookup k = none) :
    (addStrict g k v).lookup k = some v := by
  unfold addStrict
  rw [if_neg (by simp [h]), List.lookup_append, h]
  simp [List.lookup]

/-- Folding addStrict preserves every key that is already bound. -/
theorem foldStrict_lookup_some (l : List (String × SVal)) :
    ∀ (g : List (String × SVal)) (k : String) (v : SVal), g.lookup k = some v →
      (l.foldl (fun acc e => addStrict acc e.1 e.2) g).lookup k = some v := by
  induction l with
  | nil => intro g k v h; exact h
  | cons e t ih => intro g k v h; exact ih _ _ _ (addStrict_lookup_some e.1 e.2 h)

/-- Folding addStrict leaves keys outside the entry list unbound. -/
theorem foldStrict_lookup_none (l : List (String × SVal)) :
    ∀ (g : List (String × SVal)) (k : String), g.lookup k = none →
      (∀ e ∈ l, k ≠ e.1) →
      (l.foldl (fun acc e => addStrict acc e.1 e.2) g).lookup k = none := by
  induction l with
  | nil => intro g k h _; exact h
  | cons e t ih =>
    intro g k h hne
    exact ih _ _ (addStrict_lookup_none e.1 e.2 h (hne e (List.mem_cons_self e t)))
      fun x hx => hne x (List.mem_cons_of_mem _ hx)

/-- Folding addStrict binds every listed key that was unbound. -/
theorem foldStrict_lookup_acquire (l : List (String × SVal)) :
    ∀ (g : List (String × SVal)) (k : String) (v : SVal), (k, v) ∈ l →
      g.lookup k = none →
      ((l.foldl (fun acc e => addStrict acc e.1 e.2) g).lookup k).isSome = true := by
  induction l with
  | nil => intro g k v h _; simp at h
  | cons e t ih =>
    intro g k v hm h
    rcases List.mem_cons.mp hm with heq | hmem
    · rw [List.foldl_cons]
      have : (addStrict g e.1 e.2).lookup k = some e.2 := by
        rw [show e.1 = k by rw [heq.symm]] at *
        exact addStrict_lookup_new e.2 h
      rw [foldStrict_lookup_some t _ _ _ this]
      rfl
    · rw [List.foldl_cons]
      cases hfirst : (addStrict g e.1 e.2).lookup k with
      | some w =>
        rw [foldStrict_lookup_some t _ _ _ hfirst]
        rfl
      | none => exact ih _ _ _ hmem hfirst

/-- C7: add_structure adds its seven structure entries with strict=True and
catches KeyExistsError, so every key already present in the graph keeps its
old value; keys outside the entry list stay unbound; and every unbound entry
key acquires a value. -/
theorem add_structure_frame (g : List (String × SVal)) (si : StructInfo) :
    (∀ k v, g.lookup k = some v → (add_structure g si).lookup k = some v) ∧
    (∀ k, g.lookup k = none → k ∉ (structureEntries si).map Prod.fst →
      (add_structure g si).lookup k = none) ∧
    (∀ k v, (k, v) ∈ structureEntries si → g.lookup k = none →
      ((add_structure g si).lookup k).isSome = true) := by
  refine ⟨?_, ?_, ?_⟩
  · intro k v h
    exact foldStrict_lookup_some _ _ _ _ h
  · intro k h hk
    refine foldStrict_lookup_none _ _ _ h fun e he heq => hk ?_
    exact List.mem_map.mpr ⟨e, he, heq.symm⟩
  · intro k v hm h
    exact foldStrict_lookup_acquire _ _ _ _ hm h

/-! ## C1 — the demand pipeline computes shares by logit and PDT by product -/

/-- C1: in the dataflow graph assembled by prepare_reporter, under every
operation semantics and every environment that evaluates the graph, the mode
shares "shares:n-t-y" are the logit function over dimension t applied to the
transport costs, the calibrated share weights, lambda and the model years, and
the per-mode PDT "transport pdt:n-y-t" is the product of the total PDT and the
shares.  gdpKey, merKey and priceFullKey are the configuration-dependent
resolved keys; plotTasks are the plot tasks appended to the queue. -/
theorem demand_shares_logit_product (V : Type) (sem : QTask → List V → V)
    (gdpKey merKey priceFullKey : String) (plotTasks : List (String × QTask))
    (env : String → V)
    (h : ConsistentEnv sem (demandQueue gdpKey merKey priceFullKey ++ plotTasks) env) :
    env "shares:n-t-y" =
      sem ⟨"logit", [("dim", "t")],
            ["cost:n-y-c-t", "share weight:n-t-y", "lambda:", "y:model"]⟩
        [env "cost:n-y-c-t", env "share weight:n-t-y", env "lambda:", env "y:model"] ∧
    env "transport pdt:n-y-t" =
      sem ⟨"product", [], ["transport pdt:n-y:total", "shares:n-t-y"]⟩
        [env "transport pdt:n-y:total", env "shares:n-t-y"] := by
  constructor
  · have hm : (("shares:n-t-y",
        (⟨"logit", [("dim", "t")],
          ["cost:n-y-c-t", "share weight:n-t-y", "lambda:", "y:model"]⟩ : QTask)) ∈
        demandQueue gdpKey merKey priceFullKey ++ plotTasks) := by
      apply List.mem_append_left
      simp only [demandQueue, t0]
      repeat first
        | exact List.mem_cons_self _ _
        | apply List.mem_cons_of_mem
    exact h _ hm
  · have hm : (("transport pdt:n-y-t",
        (⟨"product", [], ["transport pdt:n-y:total", "shares:n-t-y"]⟩ : QTask)) ∈
        demandQueue gdpKey merKey priceFullKey ++ plotTasks) := by
      apply List.mem_append_left
      simp only [demandQueue, t0]
      repeat first
        | exact List.mem_cons_self _ _
        | apply List.mem_cons_of_mem
    exact h _ hm

/-- Witness for C1: the concrete trivial semantics over Unit evaluates the
graph at concrete resolved keys, and the theorem applies. -/
theorem demand_shares_logit_product_witness :
    ConsistentEnv (fun _ _ => ()) (demandQueue "GDP:n-y" "MERtoPPP:n-y"
      "PRICE_COMMODITY:n-c-y" ++ []) (fun _ => ()) ∧
    ((fun _ => () : String → Unit) "shares:n-t-y" =
      (fun _ _ => () : QTask → List Unit → Unit) ⟨"logit", [("dim", "t")],
          ["cost:n-y-c-t", "share weight:n-t-y", "lambda:", "y:model"]⟩
        [(fun _ => () : String → Unit) "cost:n-y-c-t",
         (fun _ => () : String → Unit) "share weight:n-t-y",
         (fun _ => () : String → Unit) "lambda:",
         (fun _ => () : String → Unit) "y:model"]) :=
  ⟨fun _ _ => rfl,
   (demand_shares_logit_product Unit (fun _ _ => ()) "GDP:n-y" "MERtoPPP:n-y"
     "PRICE_COMMODITY:n-c-y" [] (fun _ => ()) (fun _ _ => rfl)).1⟩

/-! ## C3 — dummy demands -/

/-- Membership characterization of the per-commodity demand rows. -/
theorem mem_demandRows {c : Commodity} {y : List Int} {r : DemandRow} :
    r ∈ demandRows c y ↔
      ∃ i, ∃ hi : i < y.length, r = mkDemandRow c i y[i] "" := by
  unfold demandRows
  rw [List.mem_map]
  constructor
  · rintro ⟨p, hp, rfl⟩
    obtain ⟨i, x⟩ := p
    obtain ⟨hlt, hx⟩ := List.mem_enum hp
    refine ⟨i, hlt, ?_⟩
    simp only [hx]
  · rintro ⟨i, hi, rfl⟩
    refine ⟨(i, y[i]), ?_, rfl⟩
    rw [List.mem_iff_getElem]
    exact ⟨i, by simpa [List.enum_length] using hi, List.getElem_enum _ _ _⟩

/-- Membership characterization of broadcasting over nodes. -/
theorem mem_broadcastNodes {rs : List DemandRow} {ns : List String} {r : DemandRow} :
    r ∈ broadcastNodes rs ns ↔ ∃ n ∈ ns, ∃ r0 ∈ rs,
      r = ⟨r0.commodity, r0.level, r0.time, r0.value, r0.year, r0.unit, n⟩ := by
  unfold broadcastNodes
  rw [List.mem_flatMap]
  constructor
  · rintro ⟨n, hn, hr⟩
    rcases List.mem_map.mp hr with ⟨r0, hr0, rfl⟩
    exact ⟨n, hn, r0, hr0, rfl⟩
  · rintro ⟨n, hn, r0, hr0, rfl⟩
    exact ⟨n, hn, List.mem_map.mpr ⟨r0, hr0, rfl⟩⟩

/-- Length of the broadcast frame. -/
theorem length_broadcastNodes (rs : List DemandRow) (ns : List String) :
    (broadcastNodes rs ns).length = ns.length * rs.length := by
  induction ns with
  | nil => simp [broadcastNodes]
  | cons n t ih =>
    have hstep : broadcastNodes rs (n :: t) =
        (rs.map fun r =>
          (⟨r.commodity, r.level, r.time, r.value, r.year, r.unit, n⟩ : DemandRow)) ++
        broadcastNodes rs t := by
      simp [broadcastNodes]
    rw [hstep, List.length_append, List.length_map, ih, List.length_cons]
    ring

/-- Length of the concatenated per-commodity frames. -/
theorem length_flatten_demandRows (cs : List Commodity) (y : List Int) :
    ((cs.map (demandRows · y)).flatten).length = cs.length * y.length := by
  induction cs with
  | nil => simp
  | cons c t ih =>
    have hhead : (demandRows c y).length = y.length := by
      simp [demandRows, List.enum_length]
    simp only [List.map_cons, List.flatten_cons, List.length_append, hhead, ih,
      List.length_cons]
    ring

/-- C3 counterexample: with dummy demand enabled but no commodity carrying the
"demand" annotation, dummy does not return a dict at all — pandas.concat
raises ValueError on the empty list of frames, where the claim asserts a dict
with the single key "demand". -/
theorem dummy_counterexample :
    dummy [⟨"coal", []⟩] ["R11_NAM"] [2020] true =
      .error "No objects to concatenate" := rfl

/-- C3 amended: dummy returns an empty dict whenever the demand-dummy setting
is not True; otherwise, provided at least one commodity carries the "demand"
annotation, it returns a dict with the single key "demand" whose frame
contains, for every commodity carrying the annotation, one row per year with
value 10 + i for the i-th year, level "useful", time "year", unit "t km" when
"freight" occurs in the commodity id and "km" otherwise, broadcast over every
node; commodities without the annotation contribute no rows.  (When the
setting is True and no commodity carries the annotation, pandas.concat
raises.) -/
theorem dummy_amended (commodities : List Commodity) (nodes : List String)
    (y : List Int) :
    (∀ cfg : Bool, cfg ≠ true → dummy commodities nodes y cfg = .ok []) ∧
    ((commodities.filter hasDemandAnno) ≠ [] →
      ∃ rows, dummy commodities nodes y true = .ok [("demand", rows)] ∧
        rows.length =
          nodes.length * ((commodities.filter hasDemandAnno).length * y.length) ∧
        ∀ r, r ∈ rows ↔ ∃ n ∈ nodes, ∃ c ∈ commodities, hasDemandAnno c = true ∧
          ∃ i, ∃ hi : i < y.length, r = mkDemandRow c i y[i] n) := by
  constructor
  · intro cfg hc
    have hcf : cfg = false := by cases cfg <;> simp_all
    simp [dummy, hcf]
  · intro hne
    have hmapne : (commodities.filter hasDemandAnno).map (demandRows · y) ≠ [] := by
      simpa [List.map_eq_nil_iff] using hne
    refine ⟨broadcastNodes
      ((commodities.filter hasDemandAnno).map (demandRows · y)).flatten nodes,
      by simp [dummy, hmapne], ?_, ?_⟩
    · rw [length_broadcastNodes, length_flatten_demandRows]
    · intro r
      rw [mem_broadcastNodes]
      constructor
      · rintro ⟨n, hn, r0, hr0, rfl⟩
        rcases List.mem_flatten.mp hr0 with ⟨l, hl, hr0l⟩
        rcases List.mem_map.mp hl with ⟨c, hc, rfl⟩
        rcases mem_demandRows.mp hr0l with ⟨i, hi, rfl⟩
        rcases List.mem_filter.mp hc with ⟨hcmem, hanno⟩
        exact ⟨n, hn, c, hcmem, hanno, i, hi, rfl⟩
      · rintro ⟨n, hn, c, hc, hanno, i, hi, rfl⟩
        refine ⟨n, hn, mkDemandRow c i y[i] "", ?_, rfl⟩
        apply List.mem_flatten.mpr
        refine ⟨demandRows c y,
          List.mem_map.mpr ⟨c, List.mem_filter.mpr ⟨hc, hanno⟩, rfl⟩, ?_⟩
        exact mem_demandRows.mpr ⟨i, hi, rfl⟩

/-- Witness for the amended C3 at a concrete input with one freight commodity
carrying the annotation, one node and two years. -/
theorem dummy_amended_witness :
    ∃ rows, dummy [⟨"transport freight", ["demand"]⟩] ["R11_NAM"] [2020, 2025] true =
        .ok [("demand", rows)] ∧
      rows.length = (["R11_NAM"] : List String).length *
        ((([⟨"transport freight", ["demand"]⟩] : List Commodity).filter
            hasDemandAnno).length * ([2020, 2025] : List Int).length) ∧
      ∀ r, r ∈ rows ↔ ∃ n ∈ (["R11_NAM"] : List String),
        ∃ c ∈ ([⟨"transport freight", ["demand"]⟩] : List Commodity),
          hasDemandAnno c = true ∧ ∃ i, ∃ hi : i < ([2020, 2025] : List Int).length,
            r = mkDemandRow c i ([2020, 2025] : List Int)[i] n :=
  (dummy_amended [⟨"transport freight", ["demand"]⟩] ["R11_NAM"] [2020, 2025]).2
    (by decide)

/-! ## C8 — consumer_groups -/

/-- C8: consumer_groups raises ValueError for every rtype outside
code/description/indexers; for rtype "code" it returns the sorted list of
codes obtained by concatenating one code from each of the three dimensions,
with exactly one code per element of the Cartesian product (a permutation of
the joined product). -/
theorem consumer_groups_spec (ctx : TransportSetCtx) :
    (∀ rtype, rtype ∉ (["code", "description", "indexers"] : List String) →
      consumer_groups rtype ctx = .error rtype) ∧
    ∃ l, consumer_groups "code" ctx = .ok (.codes l) ∧ List.Sorted sLe l ∧
      l.Perm ((prod3 (ctx.area_type.map Prod.fst) (ctx.attitude.map Prod.fst)
        (ctx.driver_type.map Prod.fst)).map joinCode) := by
  constructor
  · intro rtype h
    simp only [List.mem_cons, List.not_mem_nil, or_false, not_or] at h
    simp [consumer_groups, h.1, h.2.1, h.2.2]
  · refine ⟨List.insertionSort sLe ((prod3 (ctx.area_type.map Prod.fst)
      (ctx.attitude.map Prod.fst) (ctx.driver_type.map Prod.fst)).map joinCode),
      ?_, ?_, ?_⟩
    · simp only [consumer_groups]
      rw [if_neg (by decide), if_neg (by decide)]
      simp
    · haveI : IsTotal String sLe := ⟨fun a b => lexLe_total _ _⟩
      haveI : IsTrans String sLe := ⟨fun a b c => lexLe_trans _ _ _⟩
      exact List.sorted_insertionSort sLe _
    · exact List.perm_insertionSort sLe _

/-- Witness for C8: a concrete unknown rtype raises, and the code branch is
sorted and a permutation of the joined product. -/
theorem consumer_groups_witness :
    consumer_groups "bogus"
        ⟨[("U", "Urban")], [("E", "Early"), ("L", "Late")], [("M", "Mod")]⟩ =
      .error "bogus" ∧
    ∃ l, consumer_groups "code"
        ⟨[("U", "Urban")], [("E", "Early"), ("L", "Late")], [("M", "Mod")]⟩ =
        .ok (.codes l) ∧ List.Sorted sLe l ∧
      l.Perm ((prod3 ["U"] ["E", "L"] ["M"]).map joinCode) :=
  ⟨(consumer_groups_spec _).1 "bogus" (by decide),
   (consumer_groups_spec _).2⟩

/-! ## C9 — ExogenousDataFile invariants -/

/-- registerFile preserves distinctness of the keys in FILES. -/
theorem registerFile_nodup (files : List ExogenousDataFile) (f : ExogenousDataFile)
    (h : (files.map fun g => g.key).Nodup) :
    ((registerFile files f).map fun g => g.key).Nodup := by
  unfold registerFile
  split
  · exact h
  · rename_i hany
    rw [List.map_append, List.nodup_append]
    refine ⟨h, by simp, ?_⟩
    intro x hx hx2
    rcases List.mem_map.mp hx with ⟨g, hg, rfl⟩
    simp only [List.map_cons, List.map_nil, List.mem_singleton] at hx2
    rw [List.any_eq_true] at hany
    exact hany ⟨g, hg, by rw [hx2]; exact beq_self_eq_true _⟩

/-- Folding any sequence of constructor calls preserves key distinctness. -/
theorem foldConstruct_nodup (argsList : List EDFArgs) :
    ∀ files : List ExogenousDataFile, ((files.map fun g => g.key).Nodup) →
      (((argsList.foldl constructStep files).map fun g => g.key).Nodup) := by
  induction argsList with
  | nil => intro files h; exact h
  | cons a t ih =>
    intro files h
    rw [List.foldl_cons]
    apply ih
    rcases hmk : mkExogenousDataFile a with _ | f
    · simpa [constructStep, hmk] using h
    · simp only [constructStep, hmk]
      exact registerFile_nodup files f h

/-- C9: every constructed ExogenousDataFile has a final path part ending in
".csv", and key-uniqueness of the FILES list is an invariant of any sequence
of constructions. -/
theorem exogenous_file_invariants :
    (∀ a f, mkExogenousDataFile a = some f →
      ∃ stem, f.parts.getLast? = some (stem ++ ".csv")) ∧
    (∀ (argsList : List EDFArgs) (files : List ExogenousDataFile),
      ((files.map fun g => g.key).Nodup) →
      (((argsList.foldl constructStep files).map fun g => g.key).Nodup)) := by
  constructor
  · intro a f hmk
    by_cases hps : a.parts = []
    · rw [mkExogenousDataFile, if_pos hps] at hmk
      exact absurd hmk (by simp)
    · rw [mkExogenousDataFile, if_neg hps] at hmk
      have hf := Option.some.inj hmk
      refine ⟨a.parts.getLastD "", ?_⟩
      rw [← hf]
      exact List.getLast?_concat _
  · intro argsList files h
    exact foldConstruct_nodup argsList files h

/-- Witness for C9: one concrete construction appends ".csv", and one concrete
construction sequence preserves key distinctness. -/
theorem exogenous_file_invariants_witness :
    (∃ stem, (ExogenousDataFile.mk ["mer-to-ppp.csv"] "MERtoPPP:n-y" true).parts.getLast? =
      some (stem ++ ".csv")) ∧
    (((([⟨["mer-to-ppp"], some "MERtoPPP:n-y", true⟩,
        ⟨["mer-to-ppp"], some "MERtoPPP:n-y", true⟩] : List EDFArgs).foldl constructStep
      []).map fun g => g.key).Nodup) :=
  ⟨exogenous_file_invariants.1 ⟨["mer-to-ppp"], some "MERtoPPP:n-y", true⟩
      ⟨["mer-to-ppp.csv"], "MERtoPPP:n-y", true⟩ rfl,
   exogenous_file_invariants.2
     [⟨["mer-to-ppp"], some "MERtoPPP:n-y", true⟩,
      ⟨["mer-to-ppp"], some "MERtoPPP:n-y", true⟩] [] (by decide)⟩

/-! ## C10 — latest_reporting_from_file -/

/-- When no directory carries transport.csv the loop falls through to the
default triple. -/
theorem searchDirs_none (l : List RDir) (h : ∀ d ∈ l, d.hasFile = false) :
    searchDirs l = .ok (none, -1, []) := by
  induction l with
  | nil => rfl
  | cons d t ih =>
    have hd := h d (List.mem_cons_self d t)
    simp only [searchDirs, hd, Bool.false_eq_true, if_false]
    exact ih fun x hx => h x (List.mem_cons_of_mem _ hx)

/-- At the first directory carrying transport.csv with a parseable version,
the loop returns the path, version and tagged data. -/
theorem searchDirs_found (l : List RDir) :
    ∀ d v, l.find? (fun x => x.hasFile) = some d → parseVersion d.name = some v →
      searchDirs l = .ok (some (d.name ++ "/transport.csv"), v,
        d.rows.map fun r => (r.1 ++ "#" ++ toString v, r.2)) := by
  induction l with
  | nil => intro d v h _; simp at h
  | cons x t ih =>
    intro d v hf hp
    by_cases hx : x.hasFile
    · rw [List.find?_cons_of_pos _ hx] at hf
      obtain rfl := Option.some.inj hf
      simp only [searchDirs, hx, if_true, hp]
    · rw [List.find?_cons_of_neg _ (by simp [hx])] at hf
      simp only [searchDirs]
      rw [if_neg (by simp [hx])]
      exact ih d v hf hp

/-- C10: latest_reporting_from_file searches the version directories in
descending order; at the first one containing transport.csv it returns the
file path, the version parsed from the directory name, and the data with
"#(version)" appended to the Scenario column; when no searched directory
contains the file it returns (None, -1, empty frame). -/
theorem latest_reporting_spec (dirs : List RDir) :
    ((∀ d ∈ dirs, d.hasFile = false) →
      latest_reporting_from_file dirs = .ok (none, -1, [])) ∧
    (∀ d v, (sortDirsDesc dirs).find? (fun x => x.hasFile) = some d →
      parseVersion d.name = some v →
      latest_reporting_from_file dirs = .ok (some (d.name ++ "/transport.csv"), v,
        d.rows.map fun r => (r.1 ++ "#" ++ toString v, r.2))) := by
  constructor
  · intro h
    apply searchDirs_none
    intro d hd
    exact h d ((List.perm_insertionSort dirGe dirs).subset hd)
  · intro d v hf hp
    exact searchDirs_found _ d v hf hp

/-- Witness for C10: a directory list without the file yields the default
triple, and a concrete two-directory list yields the highest version carrying
the file with the tagged Scenario column. -/
theorem latest_reporting_witness :
    latest_reporting_from_file [⟨"m_s_v9", false, []⟩] = .ok (none, -1, []) ∧
    latest_reporting_from_file
        [⟨"m_s_v3", true, [("base", "x")]⟩, ⟨"m_s_v12", false, []⟩] =
      .ok (some ("m_s_v3" ++ "/transport.csv"), 3,
        ([("base", "x")] : List (String × String)).map
          fun r => (r.1 ++ "#" ++ toString (3 : Int), r.2)) :=
  ⟨(latest_reporting_spec _).1 (by decide),
   (latest_reporting_spec _).2 ⟨"m_s_v3", true, [("base", "x")]⟩ 3
     (by decide) (by decide)⟩

/-! ## Remaining witnesses -/

/-- Witness for C2: an unsupported region raises; R11 passes the renamed data
through; R14 derives it via adapt_R11_R14. -/
theorem add_exogenous_data_witness :
    add_exogenous_data "R99" [] "mer-to-ppp.csv" =
      .error "Exogenous data for demand projection" ∧
    (∃ g, add_exogenous_data "R11" [] "mer-to-ppp.csv" = .ok g ∧
      g.lookup ("MERtoPPP:n-y:" ++ "R11") =
        some (.passThrough "MERtoPPP:n-y:rename")) ∧
    (∃ g, add_exogenous_data "R14" [] "mer-to-ppp.csv" = .ok g ∧
      g.lookup "MERtoPPP:n-y:R14" = some (.adaptR11R14 "MERtoPPP:n-y:rename")) :=
  ⟨add_exogenous_data_regions.1 "R99" [] "mer-to-ppp.csv" (by decide),
   add_exogenous_data_regions.2.1 "R11" [] "mer-to-ppp.csv" (Or.inl rfl),
   add_exogenous_data_regions.2.2 [] "mer-to-ppp.csv"⟩

/-- Witness for C7: a pre-existing "y" entry is preserved, and the absent "cg"
entry acquires a value. -/
theorem add_structure_frame_witness :
    (add_structure [("y", SVal.qInts [2020])]
        ⟨["c1"], ["cg1"], ["n1"], ["n1c"], [2030], 2030, ["LDV"]⟩).lookup "y" =
      some (.qInts [2020]) ∧
    ((add_structure [("y", SVal.qInts [2020])]
        ⟨["c1"], ["cg1"], ["n1"], ["n1c"], [2030], 2030, ["LDV"]⟩).lookup
      "cg").isSome = true :=
  ⟨(add_structure_frame [("y", SVal.qInts [2020])]
      ⟨["c1"], ["cg1"], ["n1"], ["n1c"], [2030], 2030, ["LDV"]⟩).1 "y"
      (.qInts [2020]) rfl,
   (add_structure_frame [("y", SVal.qInts [2020])]
      ⟨["c1"], ["cg1"], ["n1"], ["n1c"], [2030], 2030, ["LDV"]⟩).2.2 "cg"
      (.qStrs ["cg1"]) (by decide) rfl⟩

end MixModels
